/-
Verification of the rule-based entity-resolution engine of the AI-Assistant
repository (files istok_nlp.py and NLP_with_spaCy.py).

The Python code is shallowly embedded: the spaCy document (tokens with their
part-of-speech tag and lemma, named-entity spans, sentence texts) is the input
produced by the external annotation pipeline, and the pymorphy3 morphological
analyzer is an abstract black box whose parse method either returns a list of
parses or raises (modelled as Option).  Wall-clock time, used by the timestamp
fallback, is an explicit parameter.  Fallible code paths return Except.
-/
import Mathlib

/-! ## Python string primitives (restricted to the alphabets the program uses) -/

/-- Model of Python str.lower on one character, covering ASCII letters and the
Cyrillic alphabet (А-Я, Ё) — the only alphabets occurring in this program. -/
def lowerChar (c : Char) : Char :=
  if 65 ≤ c.toNat ∧ c.toNat ≤ 90 then Char.ofNat (c.toNat + 32)
  else if 0x410 ≤ c.toNat ∧ c.toNat ≤ 0x42F then Char.ofNat (c.toNat + 32)
  else if c.toNat = 0x401 then Char.ofNat 0x451
  else c

/-- Model of Python str.upper on one character, same alphabets as lowerChar. -/
def upperChar (c : Char) : Char :=
  if 97 ≤ c.toNat ∧ c.toNat ≤ 122 then Char.ofNat (c.toNat - 32)
  else if 0x430 ≤ c.toNat ∧ c.toNat ≤ 0x44F then Char.ofNat (c.toNat - 32)
  else if c.toNat = 0x451 then Char.ofNat 0x401
  else c

/-- Python text.lower(). -/
def pyLower (s : String) : String :=
  String.mk (s.toList.map lowerChar)

/-- Python text.capitalize(): first character uppercased, the rest lowercased. -/
def pyCapitalize (s : String) : String :=
  match s.toList with
  | [] => ""
  | c :: cs => String.mk (upperChar c :: cs.map lowerChar)

/-- Sublist (contiguous) membership on character lists. -/
def isSubList (needle : List Char) : List Char → Bool
  | [] => needle.isEmpty
  | c :: t => needle.isPrefixOf (c :: t) || isSubList needle t

/-- Python substring test: needle in hay. -/
def inStr (needle hay : String) : Bool :=
  isSubList needle.toList hay.toList

/-- Python ''.join(filter(str.isdigit, s)). -/
def digitsOf (s : String) : String :=
  String.mk (s.toList.filter Char.isDigit)

/-- Python any(c.isdigit() for c in s). -/
def hasDigit (s : String) : Bool :=
  s.toList.any Char.isDigit

/-! ## The pymorphy3 black box -/

/-- One form of a lexeme as exposed by pymorphy3 (form.word, form.tag). The tag
is modelled as the list of its grammemes, so that mem tests model the
Python expression GRAMMEME in tag. -/
structure LexForm where
  word : String
  tag : List String
  deriving DecidableEq

/-- One parse returned by pymorphy3: parsed word, normal form, tag grammemes and
the lexeme (all forms of the same lexeme family). -/
structure ParseRec where
  word : String
  normal_form : String
  tag : List String
  lexeme : List LexForm
  deriving DecidableEq

/-- The morphological analyzer black box.  parse w = none models an internal
exception raised by the analysis; parse w = some ps models a normal return of
the parse list ps (pymorphy3 in fact always returns a non-empty list). -/
structure Morph where
  parse : String → Option (List ParseRec)

/-- An analyzer holding parse w = some [p] with p.normal_form = w: every word is
already in its normal form.  Used as the concrete analyzer of witnesses and
counterexamples. -/
def idMorphAnalyzer : Morph :=
  ⟨fun w => some [⟨w, w, [], []⟩]⟩

/-- The analyzer slot self.morph of IIoTAnalyzer: some analyzer when
pymorphy3 initialised, none when initialisation failed. -/
def mId : Option Morph := some idMorphAnalyzer

/-! ## IIoTAnalyzer term dictionaries (istok_nlp.py, __init__) -/

def equipment_types : List (String × List String) :=
  [("станок", ["станок", "станка", "станку", "станком", "станке", "фрезер", "фрезерный", "токар", "токарный",
               "шлифовальный", "шлифовщик", "обрабатывающий", "обработка"]),
   ("пресс", ["пресс", "пресса", "прессу", "прессом", "прессе", "гидропресс", "гидравлический пресс",
              "кривошипный пресс", "пружинный пресс", "пневматический пресс"]),
   ("робот", ["робот", "робота", "роботу", "роботом", "роботе", "манипулятор", "сварочный робот",
              "автоматический робот", "роботизированный", "манипулятор"]),
   ("конвейер", ["конвейер", "лента", "транспортёр", "транспортер", "поток", "транспортная лента",
                 "ленточный конвейер", "скребковый"]),
   ("компрессор", ["компрессор", "компрессора", "компрессору", "компрессором", "компрессоре",
                   "воздушный компрессор", "масляный компрессор", "воздушный насос"]),
   ("линия", ["линия", "линии", "линию", "линией", "лине", "упаковочная линия", "сборочная линия",
              "автоматическая линия", "комплекс"]),
   ("печь", ["печь", "печи", "печью", "печкой", "нагревательная установка", "отопительная печь",
             "кухонная печь"]),
   ("фрезерный станок", ["фрезер", "фрезерный станок", "фрезерная установка", "фрезерный комплекс"]),
   ("токарный станок", ["токарь", "токарный станок", "токарка", "обработка по кругу"]),
   ("шлифовальный станок", ["шлифовальщик", "шлифовальный станок", "шлифовка", "шлифовальная машина"]),
   ("краскопульт", ["краскопульт", "распылитель", "краскораспылитель", "краскопульту", "краскораспылитель"]),
   ("балансировочный станок", ["балансировщик", "балансировочный станок", "взвешивающий"]),
   ("гальваническая ванна", ["гальваническая ванна", "гальваника", "электрохимическая ванна"]),
   ("сварочный аппарат", ["сварочный аппарат", "сварка", "сварочный комплекс", "сварочный"])]

def components : List (String × List String) :=
  [("шпиндель", ["шпиндель", "шпинделя", "шпинделю", "шпинделем", "шпинделе", "вал", "торец", "часть вращения"]),
   ("подшипник", ["подшипник", "подшипника", "подшипнику", "подшипником", "подшипнике", "ролик", "опора"]),
   ("гидравлика", ["гидравлика", "гидравлики", "гидравлику", "гидравликой", "гидравлике", "насос", "цилиндр",
                   "трубопровод"]),
   ("электродвигатель", ["электродвигатель", "электродвигателя", "электродвигателю", "электродвигателем",
                         "электрический мотор", "двигатель"]),
   ("ремень", ["ремень", "приводной ремень", "клиновой ремень", "зубчатый ремень", "лента", "привод"]),
   ("датчик", ["датчик", "сенсор", "сигнализатор", "измеритель", "контрольный прибор", "тестер"]),
   ("трансмиссия", ["трансмиссия", "передача", "редуктор", "механизм передачи"]),
   ("кабель", ["кабель", "провод", "трос", "жгут", "проводка"])]

def symptoms : List (String × List String) :=
  [("шум", ["шум", "шума", "шумом", "шуме", "гудение", "скрежет", "скрип", "визг"]),
   ("вибрация", ["вибрация", "вибрации", "вибрацию", "вибрацией", "тряска", "дребезжание", "колебания"]),
   ("перегрев", ["перегрев", "перегрева", "перегреву", "перегревом", "жар", "тепловой режим", "перегревание"]),
   ("ошибка", ["ошибка", "ошибки", "ошибку", "ошибкой", "сбой", "неисправность", "глюк", "проблема"]),
   ("утечка", ["утечка", "течь", "протечка", "капает", "подтекание", "вытекает", "вылив"]),
   ("задержка", ["задержка", "задержки", "задержку", "задержкой", "замедление", "зависание"]),
   ("коррозия", ["коррозия", "ржавчина", "окисление", "загнивание"]),
   ("засор", ["засор", "загрязнение", "забитость", "засорение"])]

def actions : List (String × List String) :=
  [("замена", ["замена", "смена", "промывка", "ремонт", "установка", "обслуживание"]),
   ("ремонт", ["ремонт", "починка", "восстановление", "замена", "обновление"]),
   ("проверка", ["проверка", "диагностика", "осмотр", "тестирование"]),
   ("настройка", ["настройка", "регулировка", "калибровка"]),
   ("заморожен", ["заморожен", "остановлен", "выключен", "заблокирован"])]

def urgency_keywords : List (String × List String) :=
  [("высокая", ["срочно", "авария", "остановка", "критическая", "критическая ситуация", "аварийная ситуация"]),
   ("низкая", ["плановая", "плановый", "предупредительный", "профилактика", "регламентное"]),
   ("средняя", ["нормально", "стандартно", "обычно", "обычная", "обычно"])]

/-! ## Normalization and term matching (istok_nlp.py) -/

/-- IIoTAnalyzer._normalize.  Empty word yields the empty string; an absent
analyzer, a raising parse or an empty parse list yield the lowercased word;
otherwise the first parse supplies the normal form.  Total: never raises. -/
def pyNormalize (morph : Option Morph) (word : String) : String :=
  if word = "" then ""
  else
    match morph with
    | none => pyLower word
    | some m =>
      match m.parse word with
      | none => pyLower word
      | some [] => pyLower word
      | some (p :: _) => p.normal_form

/-- IIoTAnalyzer._convert_verb_to_noun.  The try block catches every exception
(including the attribute error when the analyzer is absent) and returns the
word; an empty parse list returns None; a verb, participle or adjective parse
is searched for a noun form in its lexeme. -/
def convertVerbToNoun (morph : Option Morph) (word : String) : Option String :=
  if word = "" then none
  else
    match morph with
    | none => some word
    | some m =>
      match m.parse word with
      | none => some word
      | some [] => none
      | some (p :: _) =>
        match (if p.tag.contains "VERB" || p.tag.contains "PRTS" then
                 p.lexeme.find? (fun f => f.tag.contains "NOUN")
               else none) with
        | some f => some f.word
        | none =>
          match (if p.tag.contains "ADJF" || p.tag.contains "ADJS" then
                   p.lexeme.find? (fun f => f.tag.contains "NOUN")
                 else none) with
          | some f => some f.word
          | none => some word

/-- The per-entry test of IIoTAnalyzer._match_term: the normalized input equals
the canonical key, or equals some lowercased-then-normalized variant. -/
def entryHit (morph : Option Morph) (normalized : String) (e : String × List String) : Bool :=
  normalized == e.1 || e.2.any (fun variant => normalized == pyNormalize morph (pyLower variant))

/-- IIoTAnalyzer._match_term.  A None argument is answered with None; otherwise
the input is lowercased and normalized and the first dictionary entry whose key
or variant matches is returned. -/
def matchTerm (morph : Option Morph) (term_dict : List (String × List String)) :
    Option String → Option String
  | none => none
  | some text =>
    let normalized := pyNormalize morph (pyLower text)
    (term_dict.find? (entryHit morph normalized)).map Prod.fst

/-! ## Urgency detection -/

/-- IIoTAnalyzer._detect_urgency over doc.text: the local urgency_words dict is
scanned in insertion order (high first, then low); the first level with a
keyword occurring as a substring of the lowercased text wins, capitalized;
otherwise the result is Средняя. -/
def detectUrgency (docText : String) : String :=
  let text_lower := pyLower docText
  let urgency_words : List (String × List String) :=
    [("высокая", ["срочно", "авария", "остановка", "критичн"]),
     ("низкая", ["плановый", "не срочно", "профилактика"])]
  match urgency_words.find? (fun lw => lw.2.any (fun w => inStr w text_lower)) with
  | some lw => pyCapitalize lw.1
  | none => "Средняя"

/-- EquipmentFailureAnalyzer._detect_urgency (NLP_with_spaCy.py): high keywords
first, then the single low keyword, else Средняя. -/
def spacyDetectUrgency (docText : String) : String :=
  let text_lower := pyLower docText
  if ["срочно", "авария", "остановился", "срочный"].any (fun w => inStr w text_lower) then "Высокая"
  else if inStr "незначительный" text_lower then "Низкая"
  else "Средняя"

/-! ## The spaCy document, as consumed by analyze_text -/

/-- One token of the annotated document: surface text, coarse part-of-speech
tag (token.pos_) and lemma (token.lemma_). -/
structure Token where
  text : String
  pos : String
  lemma_ : String
  deriving DecidableEq

/-- One named-entity span (doc.ents element): its surface text and label. -/
structure Ent where
  text : String
  label : String
  deriving DecidableEq

/-- The annotated document produced by the external spaCy pipeline. -/
structure Doc where
  text : String
  tokens : List Token
  ents : List Ent
  sents : List String
  deriving DecidableEq

/-! ## Dictionary-based extraction helpers of IIoTAnalyzer -/

/-- Insertion into a Python set, modelled as order-preserving dedup. -/
def insertNew (acc : List String) (s : String) : List String :=
  if acc.contains s then acc else acc ++ [s]

/-- Python set(xs), modelled with insertion order. -/
def dedupe (l : List String) : List String :=
  l.foldl insertNew []

/-- Adds an optional string to a set if it is truthy (neither None nor empty),
modelling the Python pattern: if value: result.add(value). -/
def addIfTruthy (acc : List String) : Option String → List String
  | none => acc
  | some s => if s = "" then acc else insertNew acc s

/-- Keeps an optional string only if it is truthy, modelling: if value: ... -/
def truthyOpt : Option String → Option String
  | none => none
  | some s => if s = "" then none else some s

/-- Python: xs or ys for lists (ys when xs is empty). -/
def pyOr (a b : List String) : List String :=
  if a = [] then b else a

/-- IIoTAnalyzer._get_components_from_dict: per-token dictionary match of the
components dictionary; the sentinel list when nothing matched. -/
def getComponentsFromDict (morph : Option Morph) (doc : Doc) : List String :=
  let cs := doc.tokens.foldl
    (fun acc t => addIfTruthy acc (matchTerm morph components (some t.text))) []
  if cs = [] then ["Не указаны"] else cs

/-- IIoTAnalyzer._get_symptoms_from_dict: per-token dictionary match of the
symptoms dictionary; the sentinel list when nothing matched. -/
def getSymptomsFromDict (morph : Option Morph) (doc : Doc) : List String :=
  let ss := doc.tokens.foldl
    (fun acc t => addIfTruthy acc (matchTerm morph symptoms (some t.text))) []
  if ss = [] then ["Симптомы не описаны"] else ss

/-- IIoTAnalyzer._get_components (doc-level variant): each token is first sent
through the verb-to-noun conversion, whose possibly-None result feeds the
matcher directly. -/
def get_components (morph : Option Morph) (doc : Doc) : List String :=
  let cs := doc.tokens.foldl
    (fun acc t => addIfTruthy acc (matchTerm morph components (convertVerbToNoun morph t.text))) []
  if cs = [] then ["Не указаны"] else cs

/-- IIoTAnalyzer._get_symptoms: the five additive layers (SYMPTOM spans, token
text and lemma dictionary matches, verb/adjective noun-form matches, two-token
compound phrases, sentence-level variant substring scan) followed by the
hardcoded trigger substrings.  The sentencizer guard of layer five is always
true because __init__ adds the sentencizer to the pipeline. -/
def get_symptoms (morph : Option Morph) (doc : Doc) : List String :=
  let s1 := doc.ents.foldl
    (fun acc e => if e.label = "SYMPTOM" then insertNew acc (pyLower e.text) else acc) []
  let s2 := doc.tokens.foldl
    (fun acc t =>
      addIfTruthy (addIfTruthy acc (matchTerm morph symptoms (some t.text)))
        (matchTerm morph symptoms (some t.lemma_))) s1
  let s3 := doc.tokens.foldl
    (fun acc t =>
      if t.pos = "VERB" ∨ t.pos = "ADJ" then
        match truthyOpt (convertVerbToNoun morph t.text) with
        | some noun_form => addIfTruthy acc (matchTerm morph symptoms (some noun_form))
        | none => acc
      else acc) s2
  let s4 := (doc.tokens.zip doc.tokens.tail).foldl
    (fun acc pr => addIfTruthy acc (matchTerm morph symptoms (some (pr.1.text ++ " " ++ pr.2.text)))) s3
  let s5 := doc.sents.foldl
    (fun acc sent =>
      symptoms.foldl
        (fun acc2 sv => if sv.2.any (fun v => inStr v (pyLower sent)) then insertNew acc2 sv.1 else acc2)
        acc) s4
  let text_lower := pyLower doc.text
  let s6 := if ["вибрирует", "дрожит", "трясется"].any (fun w => inStr w text_lower)
            then insertNew s5 "вибрация" else s5
  let s7 := if ["шумит", "гудит", "скрипит"].any (fun w => inStr w text_lower)
            then insertNew s6 "шум" else s6
  let s8 := if ["перегревается", "нагревается"].any (fun w => inStr w text_lower)
            then insertNew s7 "перегрев" else s7
  if s8 = [] then ["Симптомы не описаны"] else s8

/-- IIoTAnalyzer._verb_to_symptom_noun: hardcoded verb-to-symptom mapping над
the normal form.  The parse access self.morph.parse(verb)[0] is not guarded, so
an absent analyzer, a raising parse or an empty parse list propagate as an
exception (Except.error). -/
def verbToSymptomNoun (morph : Option Morph) (verb : String) : Except String (Option String) :=
  let mapping : List (String × String) :=
    [("вибрировать", "вибрация"), ("шуметь", "шум"), ("перегреваться", "перегрев"),
     ("течь", "течь"), ("зависать", "зависание"), ("останавливаться", "остановка")]
  match morph with
  | none => Except.error "AttributeError: NoneType has no attribute parse"
  | some m =>
    match m.parse verb with
    | none => Except.error "exception raised by morph.parse"
    | some [] => Except.error "IndexError: parse list empty"
    | some (p :: _) => Except.ok (mapping.lookup p.normal_form)

/-- IIoTAnalyzer._find_unknown_terms: NOUN/PROPN tokens whose text coincides
with no entity text. -/
def findUnknownTerms (doc : Doc) : List String :=
  (doc.tokens.filter
    (fun t => (t.pos = "NOUN" ∨ t.pos = "PROPN") ∧ ∀ e ∈ doc.ents, ¬(e.text = t.text))).map Token.text

/-- IIoTAnalyzer._get_timestamp: the first DATE entity text, else the current
wall-clock time (passed here as the explicit parameter now). -/
def getTimestamp (now : String) (doc : Doc) : String :=
  match doc.ents.find? (fun e => e.label == "DATE") with
  | some e => e.text
  | none => now

/-- The breakdown-context step of _determine_equipment_type: the first adjacent
pair whose left lemma is a breakdown verb and whose right token is NOUN/PROPN
supplies the equipment text. -/
def contextualEquipment (tokens : List Token) : Option String :=
  (tokens.zip tokens.tail).findSome?
    (fun pr =>
      if (pr.1.lemma_ = "сломаться" ∨ pr.1.lemma_ = "остановиться" ∨ pr.1.lemma_ = "перегреться") ∧
         (pr.2.pos = "NOUN" ∨ pr.2.pos = "PROPN")
      then some pr.2.text else none)

/-- IIoTAnalyzer._determine_equipment_type: NER findings are scanned first (an
equipment-types key or variant occurring as a substring wins, else the first
finding is returned); otherwise a per-token dictionary match, then the
breakdown-verb context, then the sentinel. -/
def determineEquipmentType (morph : Option Morph) (doc : Doc) (found_equipment : List String) : String :=
  match found_equipment with
  | [] =>
    match doc.tokens.findSome? (fun t => truthyOpt (matchTerm morph equipment_types (some t.text))) with
    | some eq_type => pyCapitalize eq_type
    | none =>
      match contextualEquipment doc.tokens with
      | some w => pyCapitalize w
      | none => "Неизвестное оборудование"
  | f :: _ =>
    match found_equipment.findSome?
        (fun eq => (equipment_types.find?
          (fun tv => (tv.1 :: tv.2).any (fun v => inStr (pyLower v) (pyLower eq)))).map Prod.fst) with
    | some eq_type => pyCapitalize eq_type
    | none => pyCapitalize f

/-! ## analyze_text -/

/-- The mutable ner_result dict of analyze_text (all nine keys). -/
structure NerInternal where
  equipment : List String
  equipment_id : List String
  dates : List String
  error_codes : List String
  times : List String
  components : List String
  symptoms : List String
  actions : List String
  unknown_terms : List String
  deriving DecidableEq

def emptyNer : NerInternal := ⟨[], [], [], [], [], [], [], [], []⟩

/-- Recording an equipment mention: the text is appended to the equipment list
and, when its digit-only substring id_part is truthy, id_part is appended to
the equipment ids.  Shared by the entity harvest and the pattern scan, which
duplicate this code in the source. -/
def addEquipment (ni : NerInternal) (txt : String) : NerInternal :=
  if digitsOf txt = "" then { ni with equipment := ni.equipment ++ [txt] }
  else { ni with equipment := ni.equipment ++ [txt],
                 equipment_id := ni.equipment_id ++ [digitsOf txt] }

/-- Step 2 of analyze_text for one entity: dispatch on the label; EQUIPMENT
additionally contributes its embedded digits as an equipment id. -/
def harvestEnt (ni : NerInternal) (e : Ent) : NerInternal :=
  if e.label = "EQUIPMENT" then addEquipment ni e.text
  else if e.label = "DATE" then { ni with dates := ni.dates ++ [e.text] }
  else if e.label = "ERROR_CODE" then { ni with error_codes := ni.error_codes ++ [e.text] }
  else if e.label = "TIME" then { ni with times := ni.times ++ [e.text] }
  else if e.label = "COMPONENT" then { ni with components := ni.components ++ [e.text] }
  else if e.label = "SYMPTOM" then { ni with symptoms := ni.symptoms ++ [e.text] }
  else if e.label = "ACTION" then { ni with actions := ni.actions ++ [e.text] }
  else ni

/-- Step 3 of analyze_text for one token: a NOUN/PROPN token containing a digit
is recorded as equipment together with its digit-only substring. -/
def patternTok (ni : NerInternal) (t : Token) : NerInternal :=
  if (t.pos = "NOUN" ∨ t.pos = "PROPN") ∧ hasDigit t.text then addEquipment ni t.text
  else ni

/-- Steps 2 and 3 of analyze_text: NER harvest, then — only if no equipment was
found — the word-plus-digits pattern scan over all tokens. -/
def nerPhase (doc : Doc) : NerInternal :=
  let ni0 := doc.ents.foldl harvestEnt emptyNer
  if ni0.equipment = [] then doc.tokens.foldl patternTok ni0 else ni0

/-- Step 4 of analyze_text: every VERB token is sent through
_verb_to_symptom_noun (which may raise) and a truthy result joins the set. -/
def symptomStep (morph : Option Morph) : List Token → List String → Except String (List String)
  | [], acc => Except.ok acc
  | t :: ts, acc =>
    if t.pos = "VERB" then
      match verbToSymptomNoun morph t.text with
      | Except.error e => Except.error e
      | Except.ok o => symptomStep morph ts (addIfTruthy acc o)
    else symptomStep morph ts acc

/-- The ner part of the returned dict (unknown_terms key stripped). -/
structure NerOut where
  equipment : List String
  equipment_id : List String
  dates : List String
  error_codes : List String
  times : List String
  components : List String
  symptoms : List String
  actions : List String
  deriving DecidableEq

/-- The failure_analysis part of the returned dict. -/
structure FailureResult where
  equipment_type : String
  components : List String
  symptoms : List String
  urgency : String
  timestamp : String
  unknown_terms : List String
  deriving DecidableEq

/-- The record returned by analyze_text. -/
structure AnalysisResult where
  ner : NerOut
  failure_analysis : FailureResult
  raw_text : String
  success : Bool
  deriving DecidableEq

/-- Steps 5 and 6 of analyze_text: assembly of the result from the ner dict and
the combined symptom set.  success is any(ner_result.values()) — the nine ner
lists only, the rule-based failure analysis does not participate. -/
def assembleResult (morph : Option Morph) (now : String) (doc : Doc)
    (ni : NerInternal) (syms : List String) : AnalysisResult :=
  { ner := { equipment := ni.equipment, equipment_id := ni.equipment_id, dates := ni.dates,
             error_codes := ni.error_codes, times := ni.times, components := ni.components,
             symptoms := ni.symptoms, actions := ni.actions },
    failure_analysis :=
      { equipment_type := determineEquipmentType morph doc ni.equipment,
        components := dedupe (pyOr ni.components (getComponentsFromDict morph doc)),
        symptoms := pyOr syms (getSymptomsFromDict morph doc),
        urgency := detectUrgency doc.text,
        timestamp := getTimestamp now doc,
        unknown_terms := findUnknownTerms doc },
    raw_text := doc.text,
    success := !ni.equipment.isEmpty || !ni.equipment_id.isEmpty || !ni.dates.isEmpty ||
               !ni.error_codes.isEmpty || !ni.times.isEmpty || !ni.components.isEmpty ||
               !ni.symptoms.isEmpty || !ni.actions.isEmpty || !ni.unknown_terms.isEmpty }

/-- IIoTAnalyzer.analyze_text over the annotated document, with the wall clock
as the explicit parameter now. -/
def analyzeText (morph : Option Morph) (now : String) (doc : Doc) :
    Except String AnalysisResult :=
  let ni := nerPhase doc
  match symptomStep morph doc.tokens (dedupe ni.symptoms) with
  | Except.error e => Except.error e
  | Except.ok syms => Except.ok (assembleResult morph now doc ni syms)

/-! ## EquipmentFailureAnalyzer (NLP_with_spaCy.py) -/

/-- An entity of the pretrained ru_core_news_sm pipeline. -/
structure SpacyEnt where
  text : String
  label : String
  deriving DecidableEq

/-- The document consumed by EquipmentFailureAnalyzer._get_equipment_id. -/
structure SpacyDoc where
  text : String
  ents : List SpacyEnt
  deriving DecidableEq

/-- EquipmentFailureAnalyzer._get_equipment_id: the full text of the first
entity labelled ORG or PER or containing a digit; the sentinel otherwise. -/
def spacyGetEquipmentId (doc : SpacyDoc) : String :=
  match doc.ents.find? (fun e => e.label == "ORG" || e.label == "PER" || hasDigit e.text) with
  | some e => e.text
  | none => "Не указан"

/-! ## train_ner_model (istok_nlp.py) -/

/-- One training example: text and its (start, end, label) entity triples. -/
structure TrainItem where
  text : String
  entities : List (Nat × Nat × String)
  deriving DecidableEq

/-- The losses dict keys filled by one training iteration: spaCy's nlp.update
records a loss under the key ner for every processed batch, and minibatch
yields no batch when the training split is empty, leaving the dict empty. -/
def epochLossKeys (train_examples : List TrainItem) : List String :=
  if train_examples.isEmpty then [] else ["ner"]

/-- The per-iteration report line print(f"...{losses['ner']:.3f}..."): indexing
the losses dict raises KeyError when the key is absent. -/
def reportIter (lossKeys : List String) : Except String Unit :=
  if lossKeys.contains "ner" then Except.ok () else Except.error "KeyError: ner"

/-- The n_iter training iterations of train_ner_model; the first raising report
line aborts the call. -/
def trainLoop (train_examples : List TrainItem) : Nat → Except String Unit
  | 0 => Except.ok ()
  | n + 1 =>
    match reportIter (epochLossKeys train_examples) with
    | Except.ok _ => trainLoop train_examples n
    | Except.error e => Except.error e

/-- IIoTAnalyzer.train_ner_model, control-flow model: the examples list mirrors
train_data; random.shuffle permutes in place (modelled as the identity
permutation — only the length reaches the crash path); the training split is
examples[:int(0.8 * len(examples))]; each iteration then runs the batches and
executes the report line.  Persisting to disk happens only after all
iterations succeed. -/
def train_ner_model (train_data : List TrainItem) (n_iter : Nat) : Except String Unit :=
  let examples := train_data
  let train_examples := examples.take ((8 * examples.length) / 10)
  trainLoop train_examples n_iter

/-! ## Concrete fixtures for witnesses and counterexamples -/

/-- The document of the empty input text under the constructed pipeline
(blank Russian model plus sentencizer and ner): no tokens, no entities. -/
def emptyDoc : Doc := ⟨"", [], [], []⟩

/-- A document for the one-word input вибрация: one noun token, no spans. -/
def docVib : Doc := ⟨"вибрация", [⟨"вибрация", "NOUN", "вибрация"⟩], [], ["вибрация"]⟩

/-- A document for the input станок: one noun token without digits, no spans. -/
def docStanok : Doc := ⟨"станок", [⟨"станок", "NOUN", "станок"⟩], [], ["станок"]⟩

/-- A document for the input станок 5 in which the tagger found no entity and
the numeral token is tagged NOUN, so the word-plus-digits pattern can fire. -/
def docStanok5 : Doc :=
  ⟨"станок 5", [⟨"станок", "NOUN", "станок"⟩, ⟨"5", "NOUN", "5"⟩], [], ["станок 5"]⟩

/-- A spaCy document whose pipeline produced no entities. -/
def spacyDocEmpty : SpacyDoc := ⟨"станок", []⟩

/-- A spaCy document in which the pipeline produced the digit-bearing entity
станок 5. -/
def spacyDoc5 : SpacyDoc := ⟨"станок 5", [⟨"станок 5", "MISC"⟩]⟩

/-- The result analyze_text assembles for the empty document at clock ts. -/
def resEmpty (ts : String) : AnalysisResult :=
  { ner := ⟨[], [], [], [], [], [], [], []⟩,
    failure_analysis :=
      { equipment_type := "Неизвестное оборудование",
        components := ["Не указаны"],
        symptoms := ["Симптомы не описаны"],
        urgency := "Средняя",
        timestamp := ts,
        unknown_terms := [] },
    raw_text := "",
    success := false }

/-- Projection of a non-raising analysis onto its success flag. -/
def successOf : Except String AnalysisResult → Option Bool
  | Except.ok r => some r.success
  | Except.error _ => none

/-- Projection of a non-raising analysis onto its ner equipment_id list. -/
def nerIdsOf : Except String AnalysisResult → Option (List String)
  | Except.ok r => some r.ner.equipment_id
  | Except.error _ => none

/-- Projection of a non-raising analysis onto its failure-analysis symptoms. -/
def failSymptomsOf : Except String AnalysisResult → Option (List String)
  | Except.ok r => some r.failure_analysis.symptoms
  | Except.error _ => none

/-- Projection of a non-raising analysis onto its failure-analysis components. -/
def failComponentsOf : Except String AnalysisResult → Option (List String)
  | Except.ok r => some r.failure_analysis.components
  | Except.error _ => none

/-- Projection of a non-raising analysis onto its timestamp. -/
def timestampOf : Except String AnalysisResult → Option String
  | Except.ok r => some r.failure_analysis.timestamp
  | Except.error _ => none

/-- The black-box contract the installed pymorphy3 analyzer satisfies: parse
always returns a non-empty list of parses (its prediction fallback guarantees
at least one parse for any input and raises no exception). -/
def morphTotal (m : Morph) : Prop :=
  ∀ w : String, ∃ p ps, m.parse w = some (p :: ps)

/-! ## Helper lemmas -/

theorem insertNew_ne_nil (acc : List String) (s : String) : insertNew acc s ≠ [] := by
  unfold insertNew
  split_ifs with h
  · intro hn
    rw [hn] at h
    simp at h
  · simp

theorem foldl_insertNew_ne_nil (l : List String) :
    ∀ acc : List String, acc ≠ [] → l.foldl insertNew acc ≠ [] := by
  induction l with
  | nil => exact fun acc h => h
  | cons x xs ih =>
    intro acc _
    rw [List.foldl_cons]
    exact ih _ (insertNew_ne_nil acc x)

theorem dedupe_ne_nil (l : List String) (h : l ≠ []) : dedupe l ≠ [] := by
  cases l with
  | nil => exact absurd rfl h
  | cons x xs =>
    unfold dedupe
    rw [List.foldl_cons]
    exact foldl_insertNew_ne_nil _ _ (insertNew_ne_nil [] x)

theorem pyOr_nil (b : List String) : pyOr [] b = b := by
  simp [pyOr]

theorem pyOr_ne_nil (a b : List String) (h : b ≠ []) : pyOr a b ≠ [] := by
  unfold pyOr
  split_ifs with ha
  · exact h
  · exact ha

theorem ifSentinel_ne_nil (cs sentinel : List String) (hs : sentinel ≠ []) :
    (if cs = [] then sentinel else cs) ≠ [] := by
  split_ifs with h
  · exact hs
  · exact h

theorem getComponentsFromDict_ne_nil (morph : Option Morph) (doc : Doc) :
    getComponentsFromDict morph doc ≠ [] :=
  ifSentinel_ne_nil _ _ (by simp)

theorem getSymptomsFromDict_ne_nil (morph : Option Morph) (doc : Doc) :
    getSymptomsFromDict morph doc ≠ [] :=
  ifSentinel_ne_nil _ _ (by simp)

theorem foldl_addIfTruthy_eq (g : Token → Option String) (ts : List Token) :
    (∀ t ∈ ts, g t = none) →
    ∀ acc : List String, ts.foldl (fun acc t => addIfTruthy acc (g t)) acc = acc := by
  induction ts with
  | nil => exact fun _ _ => rfl
  | cons t ts ih =>
    intro h acc
    rw [List.foldl_cons, h t (by simp)]
    exact ih (fun t2 ht2 => h t2 (by simp [ht2])) (addIfTruthy acc none)

theorem getComponentsFromDict_sentinel (morph : Option Morph) (doc : Doc)
    (h : ∀ t ∈ doc.tokens, matchTerm morph components (some t.text) = none) :
    getComponentsFromDict morph doc = ["Не указаны"] := by
  unfold getComponentsFromDict
  have hf := foldl_addIfTruthy_eq (fun t => matchTerm morph components (some t.text)) doc.tokens h []
  simp only at hf
  rw [hf]
  rfl

theorem getSymptomsFromDict_sentinel (morph : Option Morph) (doc : Doc)
    (h : ∀ t ∈ doc.tokens, matchTerm morph symptoms (some t.text) = none) :
    getSymptomsFromDict morph doc = ["Симптомы не описаны"] := by
  unfold getSymptomsFromDict
  have hf := foldl_addIfTruthy_eq (fun t => matchTerm morph symptoms (some t.text)) doc.tokens h []
  simp only at hf
  rw [hf]
  rfl

theorem symptomStep_ok_of_total {m : Morph} (h : morphTotal m) (ts : List Token) :
    ∀ acc : List String, ∃ s, symptomStep (some m) ts acc = Except.ok s := by
  induction ts with
  | nil => exact fun acc => ⟨acc, rfl⟩
  | cons t ts ih =>
    intro acc
    by_cases hv : t.pos = "VERB"
    · obtain ⟨p, ps, hp⟩ := h t.text
      simp only [symptomStep, hv, if_true, verbToSymptomNoun, hp]
      exact ih _
    · simp only [symptomStep, hv, if_false]
      exact ih _

theorem symptomStep_skip (morph : Option Morph) (ts : List Token) :
    (∀ t ∈ ts, t.pos = "VERB" → verbToSymptomNoun morph t.text = Except.ok none) →
    ∀ acc : List String, symptomStep morph ts acc = Except.ok acc := by
  induction ts with
  | nil => exact fun _ _ => rfl
  | cons t ts ih =>
    intro h acc
    by_cases hv : t.pos = "VERB"
    · have hn := h t (by simp) hv
      simp only [symptomStep, hv, if_true, hn]
      exact ih (fun t2 ht2 => h t2 (by simp [ht2])) acc
    · simp only [symptomStep, hv, if_false]
      exact ih (fun t2 ht2 => h t2 (by simp [ht2])) acc

theorem harvest_unknown_terms (ents : List Ent) :
    ∀ ni : NerInternal, (ents.foldl harvestEnt ni).unknown_terms = ni.unknown_terms := by
  induction ents with
  | nil => exact fun _ => rfl
  | cons e es ih =>
    intro ni
    rw [List.foldl_cons, ih]
    unfold harvestEnt addEquipment
    split_ifs <;> rfl

theorem pattern_unknown_terms (ts : List Token) :
    ∀ ni : NerInternal, (ts.foldl patternTok ni).unknown_terms = ni.unknown_terms := by
  induction ts with
  | nil => exact fun _ => rfl
  | cons t ts ih =>
    intro ni
    rw [List.foldl_cons, ih]
    unfold patternTok addEquipment
    split_ifs <;> rfl

theorem nerPhase_unknown_terms (doc : Doc) : (nerPhase doc).unknown_terms = [] := by
  unfold nerPhase
  dsimp only
  split
  · rw [pattern_unknown_terms, harvest_unknown_terms]
    rfl
  · rw [harvest_unknown_terms]
    rfl

theorem determineEquipmentType_sentinel (morph : Option Morph) (doc : Doc)
    (hdict : ∀ t ∈ doc.tokens, matchTerm morph equipment_types (some t.text) = none)
    (hctx : contextualEquipment doc.tokens = none) :
    determineEquipmentType morph doc [] = "Неизвестное оборудование" := by
  unfold determineEquipmentType
  have hfs : doc.tokens.findSome?
      (fun t => truthyOpt (matchTerm morph equipment_types (some t.text))) = none := by
    rw [List.findSome?_eq_none_iff]
    intro t ht
    rw [hdict t ht]
    rfl
  rw [hfs, hctx]

/-! ## Claim theorems -/

/-- C4: _normalize is total — it never raises.  For empty input it returns the
empty string; when the analyzer is absent, or its internal analysis raises (or
returns no parse, giving an index error that the except block also catches),
it returns the lowercased input word. -/
theorem c4_normalize_total (morph : Option Morph) (w : String) :
    (w = "" → pyNormalize morph w = "") ∧
    (morph = none → pyNormalize morph w = pyLower w) ∧
    (∀ m, morph = some m → m.parse w = none → pyNormalize morph w = pyLower w) ∧
    (∀ m, morph = some m → m.parse w = some [] → pyNormalize morph w = pyLower w) := by
  have hemp : pyLower "" = "" := rfl
  refine ⟨fun h => by simp [pyNormalize, h], fun h => ?_, fun m h hp => ?_, fun m h hp => ?_⟩
  · subst h
    by_cases hw : w = ""
    · subst hw
      simp [pyNormalize]
      exact hemp.symm
    · simp [pyNormalize, hw]
  · subst h
    by_cases hw : w = ""
    · subst hw
      simp [pyNormalize]
      exact hemp.symm
    · simp [pyNormalize, hw, hp]
  · subst h
    by_cases hw : w = ""
    · subst hw
      simp [pyNormalize]
      exact hemp.symm
    · simp [pyNormalize, hw, hp]

/-- Witness for C4 at the analyzer-absent state and a concrete word. -/
theorem c4_normalize_total_witness : pyNormalize none "Тест" = pyLower "Тест" :=
  (c4_normalize_total none "Тест").2.1 rfl

/-- C3: _detect_urgency checks the high-urgency keywords before the low-urgency
keywords on the lowercased text: any high keyword forces Высокая even in the
presence of a low keyword (in particular срочно together with плановый), only a
low keyword yields Низкая, and neither yields Средняя; the analogous priority
holds for the NLP_with_spaCy variant with its keyword sets. -/
theorem c3_urgency_priority (text : String) :
    ((["срочно", "авария", "остановка", "критичн"].any (fun w => inStr w (pyLower text))) = true →
      detectUrgency text = "Высокая") ∧
    ((["срочно", "авария", "остановка", "критичн"].any (fun w => inStr w (pyLower text))) = false →
      (["плановый", "не срочно", "профилактика"].any (fun w => inStr w (pyLower text))) = true →
      detectUrgency text = "Низкая") ∧
    ((["срочно", "авария", "остановка", "критичн"].any (fun w => inStr w (pyLower text))) = false →
      (["плановый", "не срочно", "профилактика"].any (fun w => inStr w (pyLower text))) = false →
      detectUrgency text = "Средняя") ∧
    (inStr "срочно" (pyLower text) = true → inStr "плановый" (pyLower text) = true →
      detectUrgency text = "Высокая") ∧
    ((["срочно", "авария", "остановился", "срочный"].any (fun w => inStr w (pyLower text))) = true →
      spacyDetectUrgency text = "Высокая") ∧
    ((["срочно", "авария", "остановился", "срочный"].any (fun w => inStr w (pyLower text))) = false →
      inStr "незначительный" (pyLower text) = true → spacyDetectUrgency text = "Низкая") ∧
    ((["срочно", "авария", "остановился", "срочный"].any (fun w => inStr w (pyLower text))) = false →
      inStr "незначительный" (pyLower text) = false → spacyDetectUrgency text = "Средняя") := by
  refine ⟨fun h1 => ?_, fun h1 h2 => ?_, fun h1 h2 => ?_, fun hs hp => ?_,
         fun h1 => ?_, fun h1 h2 => ?_, fun h1 h2 => ?_⟩
  · simp [detectUrgency, List.find?, h1]
    decide
  · simp [detectUrgency, List.find?, h1, h2]
    decide
  · simp [detectUrgency, List.find?, h1, h2]
  · have h1 : (["срочно", "авария", "остановка", "критичн"].any
        (fun w => inStr w (pyLower text))) = true := by
      simp [List.any_eq_true]
      exact Or.inl hs
    simp [detectUrgency, List.find?, h1]
    decide
  · simp [spacyDetectUrgency, h1]
  · simp [spacyDetectUrgency, h1, h2]
  · simp [spacyDetectUrgency, h1, h2]

/-- Witness for C3: a text holding both срочно and плановый classifies High. -/
theorem c3_urgency_priority_witness :
    detectUrgency "Срочно! Хотя ремонт плановый." = "Высокая" :=
  (c3_urgency_priority "Срочно! Хотя ремонт плановый.").2.2.2.1 (by decide) (by decide)

/-- C6: _match_term lowercases then normalizes the input and returns the key of
the first dictionary entry — in definition order — whose key or whose
lowercased-then-normalized variant equals the normalized input; it returns None
exactly when no entry matches. -/
theorem c6_match_first (morph : Option Morph) (term_dict : List (String × List String))
    (text : String) :
    (∀ k, matchTerm morph term_dict (some text) = some k ↔
      ∃ e pre post, term_dict = pre ++ e :: post ∧ e.1 = k ∧
        entryHit morph (pyNormalize morph (pyLower text)) e = true ∧
        ∀ e2 ∈ pre, entryHit morph (pyNormalize morph (pyLower text)) e2 = false) ∧
    (matchTerm morph term_dict (some text) = none ↔
      ∀ e ∈ term_dict, entryHit morph (pyNormalize morph (pyLower text)) e = false) ∧
    (∀ e : String × List String,
      entryHit morph (pyNormalize morph (pyLower text)) e = true ↔
        (pyNormalize morph (pyLower text) = e.1 ∨
          ∃ v ∈ e.2, pyNormalize morph (pyLower text) = pyNormalize morph (pyLower v))) := by
  refine ⟨fun k => ?_, ?_, fun e => ?_⟩
  · constructor
    · intro h
      simp only [matchTerm, Option.map_eq_some'] at h
      obtain ⟨e, hfind, hk⟩ := h
      rw [List.find?_eq_some] at hfind
      obtain ⟨hhit, pre, post, heq, hall⟩ := hfind
      exact ⟨e, pre, post, heq, hk, hhit, fun e2 he2 => by simpa using hall e2 he2⟩
    · intro ⟨e, pre, post, heq, hk, hhit, hall⟩
      simp only [matchTerm, Option.map_eq_some']
      refine ⟨e, ?_, hk⟩
      rw [List.find?_eq_some]
      exact ⟨hhit, pre, post, heq, fun a ha => by simp [hall a ha]⟩
  · constructor
    · intro h e he
      simp only [matchTerm, Option.map_eq_none'] at h
      have := List.find?_eq_none.mp h e he
      simpa using this
    · intro h
      simp only [matchTerm, Option.map_eq_none']
      exact List.find?_eq_none.mpr (fun e he => by simp [h e he])
  · simp [entryHit, List.any_eq_true]

/-- Witness for C6: a non-matching input is answered with None. -/
theorem c6_match_first_witness :
    matchTerm none [("пресс", ["пресса", "прессу"])] (some "xyz") = none :=
  ((c6_match_first none [("пресс", ["пресса", "прессу"])] "xyz").2.1).mpr (by decide)

/-- C10: _match_term is total at its boundary: a None argument is answered with
None without raising, and every string input yields either None or a key of the
dictionary — normalization and the scan never raise (they are total functions
here) and the scan terminates on the finite dictionary. -/
theorem c10_match_total (morph : Option Morph) (term_dict : List (String × List String)) :
    matchTerm morph term_dict none = none ∧
    ∀ text : String, matchTerm morph term_dict (some text) = none ∨
      ∃ k, matchTerm morph term_dict (some text) = some k ∧ k ∈ term_dict.map Prod.fst := by
  refine ⟨rfl, fun text => ?_⟩
  cases h : term_dict.find? (entryHit morph (pyNormalize morph (pyLower text))) with
  | none =>
    left
    simp [matchTerm, h]
  | some e =>
    right
    exact ⟨e.1, by simp [matchTerm, h], List.mem_map_of_mem Prod.fst (List.mem_of_find?_eq_some h)⟩

/-- Witness for C10 at the None boundary and at a concrete string. -/
theorem c10_match_total_witness :
    matchTerm mId components none = none :=
  (c10_match_total mId components).1

/-- C9 (the code contradicts the claim): on the empty training corpus the
80 percent training split is empty, no batch ever fills the losses dict, and
the first per-iteration report line raises KeyError on losses of ner — the
call crashes instead of reporting the failure.  A corpus with at least two
examples trains and returns normally. -/
theorem c9_train_crash :
    train_ner_model [] 150 = Except.error "KeyError: ner" ∧
    train_ner_model
      [⟨"Шпиндель станка 2 вибрирует", [(0, 8, "COMPONENT"), (9, 16, "EQUIPMENT"), (17, 26, "SYMPTOM")]⟩,
       ⟨"Заменить подшипник на прессе 1", [(8, 17, "COMPONENT"), (21, 27, "EQUIPMENT"), (0, 8, "ACTION")]⟩]
      150 = Except.ok () := by
  constructor
  · rfl
  · rfl

/-- C1 counterexample: for the input вибрация the rule-based extractor finds
the symptom вибрация (a genuine, non-sentinel result), yet success is false,
because success = any(ner_result.values()) consults the tagger-filled ner dict
only — contradicting the claim that a non-empty rule-based category forces
success. -/
theorem c1_success_counterexample :
    successOf (analyzeText mId "01.01.2024 10:00" docVib) = some false ∧
    failSymptomsOf (analyzeText mId "01.01.2024 10:00" docVib) = some ["вибрация"] ∧
    (["вибрация"] : List String) ≠ [] ∧
    (["вибрация"] : List String) ≠ ["Симптомы не описаны"] := by
  exact ⟨rfl, rfl, by decide, by decide⟩

/-- C1 amended: success is true iff at least one of the eight ner lists
(equipment, equipment_id, dates, error_codes, times, components, symptoms,
actions — filled by the tagger and the word-plus-digits pattern only) is
non-empty; the rule-based failure-analysis results never influence it. -/
theorem c1_success_iff_ner (morph : Option Morph) (now : String) (doc : Doc)
    (r : AnalysisResult) (h : analyzeText morph now doc = Except.ok r) :
    r.success = true ↔
      (r.ner.equipment ≠ [] ∨ r.ner.equipment_id ≠ [] ∨ r.ner.dates ≠ [] ∨
        r.ner.error_codes ≠ [] ∨ r.ner.times ≠ [] ∨ r.ner.components ≠ [] ∨
        r.ner.symptoms ≠ [] ∨ r.ner.actions ≠ []) := by
  unfold analyzeText at h
  revert h
  dsimp only
  cases hs : symptomStep morph doc.tokens (dedupe (nerPhase doc).symptoms) with
  | error e => intro h; cases h
  | ok s =>
    intro h
    injection h with h
    subst h
    simp only [assembleResult]
    rw [nerPhase_unknown_terms]
    simp [Bool.or_eq_true, List.isEmpty_eq_false]
    tauto

/-- Witness for C1 amended at the empty document. -/
theorem c1_success_iff_ner_witness : (resEmpty "01.01.2024 10:00").success ≠ true := by
  have h := c1_success_iff_ner mId "01.01.2024 10:00" emptyDoc (resEmpty "01.01.2024 10:00") rfl
  intro hs
  rcases h.mp hs with hc | hc | hc | hc | hc | hc | hc | hc <;> exact hc rfl

/-- C7 counterexample: the same analyzer state and the same (empty) input text
analysed at two different wall-clock instants yield different results — the
timestamp field falls back to datetime.now, so extraction is not a pure
function of text and dictionaries. -/
theorem c7_determinism_counterexample :
    analyzeText mId "01.01.2024 10:00" emptyDoc ≠ analyzeText mId "02.02.2024 11:00" emptyDoc :=
  fun h => absurd (congrArg timestampOf h) (by decide)

/-- C7 amended: for a fixed analyzer state and document, two runs agree on
every field except the timestamp, and agree completely whenever the document
carries a DATE span (only then is the wall clock not consulted). -/
theorem c7_pure_modulo_timestamp (morph : Option Morph) (n1 n2 : String) (doc : Doc)
    (r1 r2 : AnalysisResult) (h1 : analyzeText morph n1 doc = Except.ok r1)
    (h2 : analyzeText morph n2 doc = Except.ok r2) :
    r1.ner = r2.ner ∧ r1.raw_text = r2.raw_text ∧ r1.success = r2.success ∧
    r1.failure_analysis.equipment_type = r2.failure_analysis.equipment_type ∧
    r1.failure_analysis.components = r2.failure_analysis.components ∧
    r1.failure_analysis.symptoms = r2.failure_analysis.symptoms ∧
    r1.failure_analysis.urgency = r2.failure_analysis.urgency ∧
    r1.failure_analysis.unknown_terms = r2.failure_analysis.unknown_terms ∧
    ((∃ e ∈ doc.ents, e.label = "DATE") → r1 = r2) := by
  unfold analyzeText at h1 h2
  revert h1 h2
  dsimp only
  cases hs : symptomStep morph doc.tokens (dedupe (nerPhase doc).symptoms) with
  | error e => intro h1; cases h1
  | ok s =>
    intro h1 h2
    injection h1 with h1
    injection h2 with h2
    subst h1
    subst h2
    refine ⟨rfl, rfl, rfl, rfl, rfl, rfl, rfl, rfl, fun ⟨e, he, hl⟩ => ?_⟩
    have ht : getTimestamp n1 doc = getTimestamp n2 doc := by
      unfold getTimestamp
      cases hf : doc.ents.find? (fun e => e.label == "DATE") with
      | some e2 => rfl
      | none =>
        exfalso
        have := List.find?_eq_none.mp hf e he
        simp [hl] at this
    simp [assembleResult, ht]

/-- Witness for C7 amended: two runs on the empty document agree on the ner
part and on the urgency. -/
theorem c7_pure_modulo_timestamp_witness :
    (resEmpty "01.01.2024 10:00").ner = (resEmpty "02.02.2024 11:00").ner ∧
    (resEmpty "01.01.2024 10:00").failure_analysis.urgency =
      (resEmpty "02.02.2024 11:00").failure_analysis.urgency := by
  have h := c7_pure_modulo_timestamp mId "01.01.2024 10:00" "02.02.2024 11:00" emptyDoc
    (resEmpty "01.01.2024 10:00") (resEmpty "02.02.2024 11:00") rfl rfl
  exact ⟨h.1, h.2.2.2.2.2.2.1⟩

/-- C8 counterexample: the input станок (no digits) yields the empty
equipment_id list in analyze_text — there is no "not specified" sentinel for
equipment ids anywhere in the result; and in the NLP_with_spaCy analyzer the
digit-bearing finding станок 5 is returned whole, not as its digit-only
substring 5. -/
theorem c8_equipment_id_counterexample :
    nerIdsOf (analyzeText mId "01.01.2024 10:00" docStanok) = some [] ∧
    some ([] : List String) ≠ some ["Не указан"] ∧
    spacyGetEquipmentId spacyDoc5 = "станок 5" ∧
    "станок 5" ≠ "5" := by
  exact ⟨rfl, by decide, rfl, by decide⟩

/-- C8 amended: in analyze_text, when the tagger finds no equipment, a
NOUN/PROPN token containing a digit contributes its digit-only substring to the
equipment_id list (станок 5 yields the list holding exactly 5), while for
станок the list stays empty — no sentinel exists for it; the sentinel
Не указан belongs to the NLP_with_spaCy analyzer, returned when no entity has
an ORG or PER label or a digit. -/
theorem c8_equipment_id_behavior (morph : Option Morph) (now : String) :
    nerIdsOf (analyzeText morph now docStanok5) = some ["5"] ∧
    nerIdsOf (analyzeText morph now docStanok) = some [] ∧
    ∀ sd : SpacyDoc,
      (∀ e ∈ sd.ents, ¬(e.label = "ORG") ∧ ¬(e.label = "PER") ∧ hasDigit e.text = false) →
      spacyGetEquipmentId sd = "Не указан" := by
  refine ⟨rfl, rfl, fun sd h => ?_⟩
  unfold spacyGetEquipmentId
  have hf : sd.ents.find? (fun e => e.label == "ORG" || e.label == "PER" || hasDigit e.text) = none := by
    rw [List.find?_eq_none]
    intro e he
    obtain ⟨h1, h2, h3⟩ := h e he
    simp [h1, h2, h3]
  rw [hf]

/-- Witness for C8 amended: a document without entities gets the sentinel. -/
theorem c8_equipment_id_behavior_witness : spacyGetEquipmentId spacyDocEmpty = "Не указан" :=
  (c8_equipment_id_behavior mId "01.01.2024 10:00").2.2 spacyDocEmpty
    (fun e he => absurd he (by simp [spacyDocEmpty]))

/-- C2: under the installed analyzer (pymorphy3: parse always returns a
non-empty parse list and raises nothing), analyze_text returns without raising
on every input document — including the empty text, whose document has no
tokens and no spans — and its failure analysis never carries an empty list:
components and symptoms are non-empty, and equal their sentinels
Не указаны and Симптомы не описаны exactly when neither the tagger nor the
dictionaries matched anything; likewise equipment_type is the sentinel
Неизвестное оборудование when no equipment was found by any of the three
strategies. -/
theorem c2_fallback_sentinels (m : Morph) (now : String) (doc : Doc) (htotal : morphTotal m) :
    ∃ r, analyzeText (some m) now doc = Except.ok r ∧
      r.failure_analysis.components ≠ [] ∧
      r.failure_analysis.symptoms ≠ [] ∧
      ((nerPhase doc).components = [] →
        (∀ t ∈ doc.tokens, matchTerm (some m) components (some t.text) = none) →
        r.failure_analysis.components = ["Не указаны"]) ∧
      ((nerPhase doc).symptoms = [] →
        (∀ t ∈ doc.tokens, t.pos = "VERB" → verbToSymptomNoun (some m) t.text = Except.ok none) →
        (∀ t ∈ doc.tokens, matchTerm (some m) symptoms (some t.text) = none) →
        r.failure_analysis.symptoms = ["Симптомы не описаны"]) ∧
      ((nerPhase doc).equipment = [] →
        (∀ t ∈ doc.tokens, matchTerm (some m) equipment_types (some t.text) = none) →
        contextualEquipment doc.tokens = none →
        r.failure_analysis.equipment_type = "Неизвестное оборудование") := by
  obtain ⟨s, hs⟩ := symptomStep_ok_of_total htotal doc.tokens (dedupe (nerPhase doc).symptoms)
  refine ⟨assembleResult (some m) now doc (nerPhase doc) s, ?_, ?_, ?_, ?_, ?_, ?_⟩
  · unfold analyzeText
    dsimp only
    rw [hs]
  · show dedupe (pyOr (nerPhase doc).components (getComponentsFromDict (some m) doc)) ≠ []
    exact dedupe_ne_nil _ (pyOr_ne_nil _ _ (getComponentsFromDict_ne_nil _ _))
  · show pyOr s (getSymptomsFromDict (some m) doc) ≠ []
    exact pyOr_ne_nil _ _ (getSymptomsFromDict_ne_nil _ _)
  · intro h1 h2
    show dedupe (pyOr (nerPhase doc).components (getComponentsFromDict (some m) doc)) = ["Не указаны"]
    rw [h1, pyOr_nil, getComponentsFromDict_sentinel _ _ h2]
    rfl
  · intro h1 h2 h3
    have hstep := symptomStep_skip (some m) doc.tokens h2 (dedupe (nerPhase doc).symptoms)
    rw [hs] at hstep
    injection hstep with hseq
    show pyOr s (getSymptomsFromDict (some m) doc) = ["Симптомы не описаны"]
    rw [hseq, h1]
    rw [getSymptomsFromDict_sentinel _ _ h3]
    rfl
  · intro h1 h2 h3
    show determineEquipmentType (some m) doc (nerPhase doc).equipment = "Неизвестное оборудование"
    rw [h1]
    exact determineEquipmentType_sentinel _ _ h2 h3

/-- Witness for C2 at a concrete total analyzer and the empty document. -/
theorem c2_fallback_sentinels_witness :
    failComponentsOf (analyzeText (some idMorphAnalyzer) "01.01.2024 10:00" emptyDoc) =
      some ["Не указаны"] ∧
    failSymptomsOf (analyzeText (some idMorphAnalyzer) "01.01.2024 10:00" emptyDoc) =
      some ["Симптомы не описаны"] := by
  obtain ⟨r, hok, hcne, hsne, hcomp, hsym, heq⟩ :=
    c2_fallback_sentinels idMorphAnalyzer "01.01.2024 10:00" emptyDoc (fun w => ⟨_, _, rfl⟩)
  have hnotok : ∀ t : Token, t ∈ emptyDoc.tokens → False := fun t ht => by simp [emptyDoc] at ht
  have h2 := hcomp rfl (fun t ht => absurd ht (fun hc => hnotok t hc))
  have h3 := hsym rfl (fun t ht _ => absurd ht (fun hc => hnotok t hc))
    (fun t ht => absurd ht (fun hc => hnotok t hc))
  rw [hok]
  exact ⟨by simp [failComponentsOf, h2], by simp [failSymptomsOf, h3]⟩
